import Mathlib

/-!
Verification of the chat-stream route handler
(src/app/api/chat-stream/route.ts) against its specification.

The handler is embedded shallowly: JavaScript dynamic values are an
inductive `JsVal` with the language's truthiness; the Gemini SDK is an
oracle function from a request configuration to either a stream of text
chunks or an error; the outbound `ReadableStream` controller is a
transport that accepts a bounded number of enqueues (`none` = the client
never disconnects).  Every definition follows the TypeScript source.
-/

namespace ChatStream

/-- A JavaScript value, as far as the handler inspects one. -/
inductive JsVal where
  | undefined : JsVal
  | nullv : JsVal
  | bool (b : Bool) : JsVal
  | num (n : Int) : JsVal
  | str (s : String) : JsVal
  | obj : JsVal
deriving DecidableEq, Repr

/-- JavaScript truthiness for the values `JsVal` models
(objects and arrays are always truthy; a string is truthy iff non-empty;
a number is truthy iff non-zero). -/
def truthy : JsVal → Bool
  | .undefined => false
  | .nullv => false
  | .bool b => b
  | .num n => n != 0
  | .str s => s != ""
  | .obj => true

/-- JavaScript whitespace as `String.prototype.trim` sees it (the
characters this handler could meet in an environment variable). -/
def isJsSpace (c : Char) : Bool :=
  c = ' ' || c = '\t' || c = '\n' || c = '\r' || c = '\x0b' || c = '\x0c'

/-- JavaScript `s.trim()`: strip leading and trailing whitespace. -/
def jsTrim (s : String) : String :=
  String.mk (((s.toList.dropWhile isJsSpace).reverse.dropWhile isJsSpace).reverse)

/-- Is `pat` a prefix of `s` (over character lists)? -/
def charsPrefixOf : List Char → List Char → Bool
  | [], _ => true
  | _ :: _, [] => false
  | a :: as, b :: bs => a == b && charsPrefixOf as bs

/-- Is `pat` a contiguous infix of `s` (over character lists)? -/
def charsInfixOf (pat : List Char) : List Char → Bool
  | [] => charsPrefixOf pat []
  | b :: bs => charsPrefixOf pat (b :: bs) || charsInfixOf pat bs

/-- JavaScript `s.includes(pat)`. -/
def strIncludes (s pat : String) : Bool :=
  charsInfixOf pat.toList s.toList

/-- Destructuring `const { message, image, images, useGrounding = true,
aiModel = 'smart' } = body` (route.ts line 64): a default applies only
when the property is `undefined`. -/
def withDefault (v : JsVal) (d : JsVal) : JsVal :=
  if v = .undefined then d else v

/-- Model selection (route.ts lines 82-84):
`aiModel === 'pro' ? 'gemini-2.5-pro-preview-06-05' : aiModel === 'smart'
? 'gemini-2.5-flash-preview-05-20' : 'gemini-2.0-flash-exp'`. -/
def modelName (aiModel : JsVal) : String :=
  if aiModel = .str "pro" then "gemini-2.5-pro-preview-06-05"
  else if aiModel = .str "smart" then "gemini-2.5-flash-preview-05-20"
  else "gemini-2.0-flash-exp"

/-- The premium model identifier. -/
def proModelId : String := "gemini-2.5-pro-preview-06-05"

/-- The standard model identifier. -/
def smartModelId : String := "gemini-2.5-flash-preview-05-20"

/-- The legacy / search-capable model identifier. -/
def internetModelId : String := "gemini-2.0-flash-exp"

/-- A provider tool.  The source declares a single tool object
`googleSearchTool = \x7b googleSearch: \x7b\x7d \x7d` (route.ts lines 14-16). -/
inductive Tool where
  | googleSearch : Tool
deriving DecidableEq, Repr

/-- The Google Search tool configuration object. -/
def googleSearchTool : Tool := .googleSearch

/-- Tool configuration (route.ts line 102):
`const tools = (aiModel === 'internet' && useGrounding) ? [googleSearchTool] : []`. -/
def toolsFor (aiModel useGrounding : JsVal) : List Tool :=
  if aiModel = .str "internet" && truthy useGrounding then [googleSearchTool] else []

/-- `\w` of the data-URI regex: `[A-Za-z0-9_]`. -/
def isWordChar (c : Char) : Bool :=
  (c ≥ 'A' && c ≤ 'Z') || (c ≥ 'a' && c ≤ 'z') || (c ≥ '0' && c ≤ '9') || c = '_'

/-- Helper for `stripDataUri`: after the literal `data:image/` prefix,
match one or more word characters followed by `;base64,` and return the
remainder; otherwise fail. -/
def stripAfterScheme (cs : List Char) : Option (List Char) :=
  let w := cs.takeWhile isWordChar
  let rest := cs.dropWhile isWordChar
  if w.isEmpty then none
  else if charsPrefixOf ";base64,".toList rest then some (rest.drop 8) else none

/-- `base64.replace(/^data:image\/\w+;base64,/, '')` (route.ts line 9):
strip a leading `data:image/<word>;base64,` prefix if present. -/
def stripDataUri (s : String) : String :=
  let cs := s.toList
  let pre := "data:image/".toList
  if charsPrefixOf pre cs then
    match stripAfterScheme (cs.drop pre.length) with
    | some rest => String.mk rest
    | none => s
  else s

/-- Base64 alphabet: character to sextet value.  Characters outside the
alphabet (including `=` padding and whitespace) are ignored by Node's
decoder, modelled by returning `none`. -/
def base64DecChar (c : Char) : Option Nat :=
  if c ≥ 'A' && c ≤ 'Z' then some (c.toNat - 'A'.toNat)
  else if c ≥ 'a' && c ≤ 'z' then some (c.toNat - 'a'.toNat + 26)
  else if c ≥ '0' && c ≤ '9' then some (c.toNat - '0'.toNat + 52)
  else if c = '+' then some 62
  else if c = '/' then some 63
  else none

/-- Assemble bytes from a list of sextets, four at a time; a trailing
group of two or three sextets yields one or two bytes, a lone trailing
sextet is dropped. -/
def sextetsToBytes : List Nat → List Nat
  | a :: b :: c :: d :: rest =>
    (a * 4 + b / 16) :: ((b % 16) * 16 + c / 4) :: ((c % 4) * 64 + d) :: sextetsToBytes rest
  | [a, b] => [a * 4 + b / 16]
  | [a, b, c] => [a * 4 + b / 16, (b % 16) * 16 + c / 4]
  | _ => []

/-- `Buffer.from(s, 'base64')`: decode base64 leniently into bytes. -/
def base64Decode (s : String) : List Nat :=
  sextetsToBytes (s.toList.filterMap base64DecChar)

/-- Sextet value to base64 character. -/
def base64EncChar (n : Nat) : Char :=
  if n < 26 then Char.ofNat ('A'.toNat + n)
  else if n < 52 then Char.ofNat ('a'.toNat + n - 26)
  else if n < 62 then Char.ofNat ('0'.toNat + n - 52)
  else if n = 62 then '+'
  else '/'

/-- Encode bytes as base64 characters with `=` padding. -/
def bytesToB64Chars : List Nat → List Char
  | x :: y :: z :: rest =>
    base64EncChar (x / 4) :: base64EncChar ((x % 4) * 16 + y / 16) ::
    base64EncChar ((y % 16) * 4 + z / 64) :: base64EncChar (z % 64) :: bytesToB64Chars rest
  | [x] => [base64EncChar (x / 4), base64EncChar ((x % 4) * 16), '=', '=']
  | [x, y] => [base64EncChar (x / 4), base64EncChar ((x % 4) * 16 + y / 16),
               base64EncChar ((y % 16) * 4), '=']
  | [] => []

/-- `buffer.toString('base64')`. -/
def base64Encode (bytes : List Nat) : String :=
  String.mk (bytesToB64Chars bytes)

/-- `base64ToBuffer` (route.ts lines 8-11) followed by
`.toString('base64')` as every call site does (lines 132, 148): strip an
optional data-URI prefix, decode, re-encode. -/
def reencodeImage (s : String) : String :=
  base64Encode (base64Decode (stripDataUri s))

/-- One content part sent to the provider: either text or inline image
data with a MIME type. -/
inductive Part where
  | text (t : String) : Part
  | inlineData (data : String) (mimeType : String) : Part
deriving DecidableEq, Repr

/-- The image part built for one base64 payload (route.ts lines 130-135
and 146-151): re-encoded data with MIME type `image/jpeg`. -/
def imagePartOf (s : String) : Part :=
  .inlineData (reencodeImage s) "image/jpeg"

/-- Content-part assembly (route.ts lines 126-163): `images` non-empty
takes priority (`images && images.length > 0`), otherwise a truthy
legacy `image` (`else if (image)`), otherwise text only. -/
def buildParts (message : String) (images : Option (List String))
    (image : Option String) : List Part :=
  match images with
  | some xs =>
    if xs.length > 0 then Part.text message :: xs.map imagePartOf
    else match image with
      | some img => if img != "" then [Part.text message, imagePartOf img]
                    else [Part.text message]
      | none => [Part.text message]
  | none =>
    match image with
    | some img => if img != "" then [Part.text message, imagePartOf img]
                  else [Part.text message]
    | none => [Part.text message]

/-- A piece of content sent to the provider: a role plus ordered parts. -/
structure Content where
  role : String
  parts : List Part
deriving DecidableEq, Repr

/-- The request configuration handed to `generateContentStream`:
contents plus a `tools` key.  `tools = none` models the object with the
`tools` key removed (the rest-spread on route.ts line 119); all three
original call sites pass the key (`some`). -/
structure RequestConfig where
  contents : List Content
  tools : Option (List Tool)
deriving DecidableEq, Repr

/-- `const \x7b tools, ...configWithoutTools \x7d = requestConfig`
(route.ts line 119): the same configuration minus the tools key. -/
def removeTools (cfg : RequestConfig) : RequestConfig :=
  { cfg with tools := none }

/-- An error thrown by the provider.  `message` is optional because the
source guards with optional chaining (`error.message?.includes`). -/
structure GenError where
  message : Option String
deriving DecidableEq, Repr

/-- The upstream stream a successful `generateContentStream` yields: the
chunk texts delivered in order, then optionally an error raised by the
iterator after those chunks. -/
structure Upstream where
  chunks : List String
  failure : Option GenError
deriving DecidableEq, Repr

/-- The grounding-unsupported test (route.ts lines 116-117):
`error.message?.includes('Search Grounding is not supported') ||
error.message?.includes('google_search_retrieval is not supported')`. -/
def groundingUnsupported (e : GenError) : Bool :=
  match e.message with
  | some m => strIncludes m "Search Grounding is not supported" ||
              strIncludes m "google_search_retrieval is not supported"
  | none => false

/-- `generateStreamWithFallback` (route.ts lines 111-124) over a
deterministic provider oracle `gen`.  Besides the result, it returns the
list of configurations actually sent to `generateContentStream`, in call
order, so retry behaviour is observable.  `useGrounding` is the raw
request field captured by the closure. -/
def generateStreamWithFallback (useGrounding : JsVal)
    (gen : RequestConfig → Except GenError Upstream) (cfg : RequestConfig) :
    Except GenError Upstream × List RequestConfig :=
  match gen cfg with
  | .ok r => (.ok r, [cfg])
  | .error e =>
    if truthy useGrounding && groundingUnsupported e then
      (gen (removeTools cfg), [cfg, removeTools cfg])
    else (.error e, [cfg])

/-- An event payload enqueued on the outbound stream. -/
inductive Event where
  | token (text : String) : Event
  | done : Event
  | errorEv (message : Option String) : Event
deriving DecidableEq, Repr

/-- Does the `i`-th enqueue attempt (0-indexed over all attempts of one
execution) succeed?  `cap = none`: the client never disconnects;
`cap = some n`: the transport accepts `n` enqueues and every later
attempt throws. -/
def enqOk (cap : Option Nat) (i : Nat) : Bool :=
  match cap with
  | none => true
  | some n => decide (i < n)

/-- Result of the token relay loop (route.ts lines 166-185):
the enqueue attempts made, the events actually enqueued, the next
attempt index, and whether the loop exited via `break` after a failed
enqueue. -/
structure RelayOut where
  attempts : List Event
  emitted : List Event
  next : Nat
  broke : Bool
deriving DecidableEq, Repr

/-- The relay loop: for each chunk text in order, skip it when falsy
(empty), otherwise attempt to enqueue a Token event; a throwing enqueue
is caught and ends the loop via `break`. -/
def relayLoop (cap : Option Nat) : List String → Nat → RelayOut
  | [], i => ⟨[], [], i, false⟩
  | t :: ts, i =>
    if t.isEmpty then relayLoop cap ts i
    else if enqOk cap i then
      let r := relayLoop cap ts (i + 1)
      ⟨Event.token t :: r.attempts, Event.token t :: r.emitted, r.next, r.broke⟩
    else ⟨[Event.token t], [], i + 1, true⟩

/-- One guarded terminal enqueue (the Done block, route.ts lines 188-196,
or the Error block, lines 202-216): the event is attempted; it is
emitted only if the transport still accepts writes, and a failure is
swallowed. -/
def terminalAttempt (cap : Option Nat) (i : Nat) (e : Event) :
    List Event × List Event :=
  ([e], if enqOk cap i then [e] else [])

/-- The body of `start(controller)` (route.ts lines 106-218) after the
provider call resolved to `up`: relay the chunks, then either the Done
block (normal exhaustion, or after a `break`) or, when the upstream call
or iteration threw, the Error block.  Returns (attempts, emitted). -/
def producerRun (cap : Option Nat) (up : Except GenError Upstream) :
    List Event × List Event :=
  match up with
  | .error e =>
    let (a, m) := terminalAttempt cap 0 (Event.errorEv e.message)
    (a, m)
  | .ok u =>
    let r := relayLoop cap u.chunks 0
    if r.broke then
      let (a, m) := terminalAttempt cap r.next Event.done
      (r.attempts ++ a, r.emitted ++ m)
    else
      match u.failure with
      | none =>
        let (a, m) := terminalAttempt cap r.next Event.done
        (r.attempts ++ a, r.emitted ++ m)
      | some e =>
        let (a, m) := terminalAttempt cap r.next (Event.errorEv e.message)
        (r.attempts ++ a, r.emitted ++ m)

/-- The parsed JSON request body as the handler destructures it
(route.ts line 64).  `message` and the two flags keep their dynamic
type; `image` and `images` are modelled at the type the handler expects
(`none` = property absent). -/
structure Body where
  message : JsVal
  image : Option String
  images : Option (List String)
  useGrounding : JsVal
  aiModel : JsVal
deriving DecidableEq, Repr

/-- `useGrounding = true` destructuring default. -/
def useGroundingOf (b : Body) : JsVal :=
  withDefault b.useGrounding (.bool true)

/-- `aiModel = 'smart'` destructuring default. -/
def aiModelOf (b : Body) : JsVal :=
  withDefault b.aiModel (.str "smart")

/-- What `POST` returns: an immediate JSON response with a status and a
top-level error message, or a streaming `Response`; in the streaming
case the handler has fixed the request configuration the producer will
send and the captured `useGrounding` value. -/
inductive HandlerResult where
  | json (status : Nat) (error : String) : HandlerResult
  | stream (cfg : RequestConfig) (useGrounding : JsVal) : HandlerResult
deriving DecidableEq, Repr

/-- The HTTP status of an immediate JSON response; `none` when the
handler answered with a streaming response instead. -/
def statusOf : HandlerResult → Option Nat
  | .json s _ => some s
  | .stream _ _ => none

/-- Truthiness of a legacy image value: `else if (image)` sees an absent
property as undefined and an empty string as falsy. -/
def imageTruthy : Option String → Bool
  | some s => s != ""
  | none => false

/-- The request configuration assembled inside `start` for a validated
message (route.ts lines 126-163): one user content whose parts follow
the image-priority rules, plus the `tools` key computed at line 102. -/
def configFor (message : String) (b : Body) : RequestConfig :=
  { contents := [{ role := "user", parts := buildParts message b.images b.image }],
    tools := some (toolsFor (aiModelOf b) (useGroundingOf b)) }

/-- The pre-stream part of `POST` (route.ts lines 18-105): credential
checks, JSON parsing, message validation, then construction of the
streaming response.  `apiKey` models `process.env.GEMINI_API_KEY`
(`none` = variable unset); `body` models `await request.json()`
(`.error` = the JSON parse threw). -/
def handlerPOST (apiKey : Option String) (body : Except Unit Body) : HandlerResult :=
  match apiKey with
  | none => .json 500 "API configuratie ontbreekt. Check Environment Variables."
  | some k =>
    if k = "" then .json 500 "API configuratie ontbreekt. Check Environment Variables."
    else if (jsTrim k).length = 0 then .json 500 "API key is leeg of ongeldig"
    else
      match body with
      | .error _ => .json 400 "Ongeldig request formaat"
      | .ok b =>
        if !truthy b.message then .json 400 "Bericht is vereist"
        else
          match b.message with
          | .str s =>
            if s.length > 100000 then
              .json 400 "Bericht moet een string zijn van maximaal 100.000 karakters"
            else .stream (configFor s b) (useGroundingOf b)
          | _ => .json 400 "Bericht moet een string zijn van maximaal 100.000 karakters"

/-- The outer-catch JSON body (route.ts lines 230-264). -/
structure ErrorResponse where
  status : Nat
  error : String
  details : String
  timestamp : String
  hint : String
deriving DecidableEq, Repr

/-- The outer error path (route.ts lines 230-264).  `err = some m` models
a caught `Error` with message `m`; `none` models a non-`Error` thrown
value.  `now` is the timestamp string. -/
def outerCatch (err : Option String) (now : String) : ErrorResponse :=
  let statusAndDetails : Nat × String :=
    match err with
    | none => (500, "Unknown error")
    | some m =>
      if strIncludes m "API key" then (401, "API key probleem: " ++ m)
      else if strIncludes m "quota" || strIncludes m "limit" then
        (429, "API limiet bereikt: " ++ m)
      else if strIncludes m "network" || strIncludes m "fetch" then
        (503, "Netwerk probleem: " ++ m)
      else (500, m)
  { status := statusAndDetails.1,
    error := "Er is een fout opgetreden bij het verwerken van je bericht",
    details := statusAndDetails.2,
    timestamp := now,
    hint :=
      if statusAndDetails.1 = 401 then "Controleer je GEMINI_API_KEY in environment variables"
      else if statusAndDetails.1 = 429 then "Wacht even en probeer opnieuw"
      else if statusAndDetails.1 = 503 then "Controleer je internetverbinding"
      else "Probeer het opnieuw of neem contact op met support" }

/-- Is this a Token event? -/
def isTokenEvent : Event → Bool
  | .token _ => true
  | _ => false

/-- Is this a terminating event (Done or Error)? -/
def isTerminal : Event → Bool
  | .done => true
  | .errorEv _ => true
  | .token _ => false

/-- The event-sequence shape the spec promises: zero or more Token
events followed by at most one terminating event, with nothing after
the terminating event. -/
def wellFormedEvents (evs : List Event) : Prop :=
  ∃ toks term, evs = toks ++ term ∧ (∀ e ∈ toks, isTokenEvent e = true) ∧
    (term = [] ∨ ∃ e, term = [e] ∧ isTerminal e = true)

/-- A provider error whose message indicates grounding is unsupported. -/
def groundingErr : GenError :=
  ⟨some "Search Grounding is not supported"⟩

/-- A request configuration carrying the search tool. -/
def cfgWithTool : RequestConfig :=
  { contents := [{ role := "user", parts := [Part.text "hi"] }],
    tools := some [googleSearchTool] }

/-- A request configuration whose tool list is already empty. -/
def cfgNoTool : RequestConfig :=
  { contents := [{ role := "user", parts := [Part.text "hi"] }],
    tools := some [] }

/-- A provider oracle that always fails with the grounding error. -/
def genAlwaysGroundingErr : RequestConfig → Except GenError Upstream :=
  fun _ => .error groundingErr

/-! ## Theorems -/

/-- C1, as written, is false on the code: an unrecognized `aiModel`
value (here `"gpt"`, neither `"pro"` nor `"internet"`) selects the
legacy/search-capable model id, not the standard model id the claim
requires. -/
theorem C1_unrecognized_not_standard :
    modelName (withDefault (JsVal.str "gpt") (JsVal.str "smart")) = internetModelId ∧
    internetModelId ≠ smartModelId := by
  decide

/-- C1 (amended): `"pro"` selects the premium model id; `"smart"` — and
an absent `aiModel`, via the destructuring default — selects the
standard model id; `"internet"` and every other value selects the
legacy/search-capable model id. -/
theorem C1_model_selection (raw : JsVal) :
    (withDefault raw (JsVal.str "smart") = JsVal.str "pro" →
      modelName (withDefault raw (JsVal.str "smart")) = proModelId) ∧
    (withDefault raw (JsVal.str "smart") = JsVal.str "smart" →
      modelName (withDefault raw (JsVal.str "smart")) = smartModelId) ∧
    (raw = JsVal.undefined →
      modelName (withDefault raw (JsVal.str "smart")) = smartModelId) ∧
    (withDefault raw (JsVal.str "smart") ≠ JsVal.str "pro" →
      withDefault raw (JsVal.str "smart") ≠ JsVal.str "smart" →
      modelName (withDefault raw (JsVal.str "smart")) = internetModelId) := by
  refine ⟨fun h => ?_, fun h => ?_, fun h => ?_, fun h1 h2 => ?_⟩
  · rw [h]; decide
  · rw [h]; decide
  · rw [h]; decide
  · simp only [modelName, if_neg h1, if_neg h2, internetModelId]

/-- Witness for C1_model_selection at concrete inputs. -/
theorem C1_model_selection_w :
    modelName (withDefault (JsVal.str "pro") (JsVal.str "smart")) = proModelId ∧
    modelName (withDefault JsVal.undefined (JsVal.str "smart")) = smartModelId ∧
    modelName (withDefault (JsVal.str "internet") (JsVal.str "smart")) = internetModelId :=
  ⟨(C1_model_selection (JsVal.str "pro")).1 (by decide),
   (C1_model_selection JsVal.undefined).2.2.1 rfl,
   (C1_model_selection (JsVal.str "internet")).2.2.2 (by decide) (by decide)⟩

/-- C3: the Google Search tool list is `[googleSearchTool]` exactly when
`aiModel` is the string `"internet"` and `useGrounding` is truthy, and
it is empty in every other case; in particular for `"pro"` and
`"smart"` it is empty for every `useGrounding` value. -/
theorem C3_tool_attachment (aiModel useGrounding : JsVal) :
    (toolsFor aiModel useGrounding = [googleSearchTool] ↔
      aiModel = JsVal.str "internet" ∧ truthy useGrounding = true) ∧
    ((aiModel = JsVal.str "pro" ∨ aiModel = JsVal.str "smart") →
      toolsFor aiModel useGrounding = []) := by
  have hmain : toolsFor aiModel useGrounding = [googleSearchTool] ↔
      aiModel = JsVal.str "internet" ∧ truthy useGrounding = true := by
    unfold toolsFor
    by_cases h1 : aiModel = JsVal.str "internet" <;>
      by_cases h2 : truthy useGrounding = true <;>
      simp [h1, h2]
  refine ⟨hmain, fun h => ?_⟩
  rcases h with h | h <;> subst h <;> simp [toolsFor]

/-- Witness for C3_tool_attachment at concrete inputs. -/
theorem C3_tool_attachment_w :
    toolsFor (JsVal.str "internet") (JsVal.bool true) = [googleSearchTool] ∧
    toolsFor (JsVal.str "pro") (JsVal.bool true) = [] :=
  ⟨(C3_tool_attachment (JsVal.str "internet") (JsVal.bool true)).1.mpr
      ⟨rfl, rfl⟩,
   (C3_tool_attachment (JsVal.str "pro") (JsVal.bool true)).2 (Or.inl rfl)⟩

/-- C9: with the credential absent the handler answers 500 for every
body — parsed or unparseable alike, so the rejection happens before the
body is parsed and no streaming response (hence no provider call) is
ever constructed; the same holds for an empty or whitespace-only
credential. -/
theorem C9_missing_credential (body : Except Unit Body) :
    handlerPOST none body =
      HandlerResult.json 500 "API configuratie ontbreekt. Check Environment Variables." ∧
    (∀ k : String, (jsTrim k).length = 0 →
      statusOf (handlerPOST (some k) body) = some 500) := by
  refine ⟨rfl, fun k hk => ?_⟩
  by_cases he : k = ""
  · simp [handlerPOST, statusOf, he]
  · simp [handlerPOST, statusOf, he, hk]

/-- Witness for C9_missing_credential: unset credential with an
unparseable body, and a whitespace-only credential. -/
theorem C9_missing_credential_w :
    handlerPOST none (Except.error ()) =
      HandlerResult.json 500 "API configuratie ontbreekt. Check Environment Variables." ∧
    statusOf (handlerPOST (some "  ") (Except.error ())) = some 500 :=
  ⟨(C9_missing_credential (Except.error ())).1,
   (C9_missing_credential (Except.error ())).2 "  " (by decide)⟩

/-- C5: with a well-formed credential and a parsed body, a message that
is missing, the empty string, not a string, or a string longer than
100000 characters is rejected with a 400 JSON response (so no streaming
response is constructed and no provider call is made), while a
non-empty string of length at most 100000 passes validation and yields
the streaming response. -/
theorem C5_message_validation (k : String) (h1 : k ≠ "")
    (h2 : (jsTrim k).length ≠ 0) (b : Body) :
    ((b.message = JsVal.undefined ∨ b.message = JsVal.str "" ∨
      (∀ s, b.message ≠ JsVal.str s) ∨
      (∃ s, b.message = JsVal.str s ∧ s.length > 100000)) →
      statusOf (handlerPOST (some k) (Except.ok b)) = some 400) ∧
    (∀ s, b.message = JsVal.str s → s ≠ "" → s.length ≤ 100000 →
      handlerPOST (some k) (Except.ok b) =
        HandlerResult.stream (configFor s b) (useGroundingOf b)) := by
  constructor
  · intro hbad
    rcases hbad with h | h | h | ⟨s, hs, hlen⟩
    · simp [handlerPOST, statusOf, h1, h2, h, truthy]
    · simp [handlerPOST, statusOf, h1, h2, h, truthy]
    · cases hm : b.message with
      | str s => exact absurd hm (h s)
      | undefined => simp [handlerPOST, statusOf, h1, h2, hm, truthy]
      | nullv => simp [handlerPOST, statusOf, h1, h2, hm, truthy]
      | obj => simp [handlerPOST, statusOf, h1, h2, hm, truthy]
      | bool v =>
        cases v
        · simp [handlerPOST, statusOf, h1, h2, hm, truthy]
        · simp [handlerPOST, statusOf, h1, h2, hm, truthy]
      | num n =>
        by_cases hn : n = 0
        · simp [handlerPOST, statusOf, h1, h2, hm, truthy, hn]
        · simp [handlerPOST, statusOf, h1, h2, hm, truthy, hn]
    · have hne : s ≠ "" := by
        intro he; subst he; simp at hlen
      simp [handlerPOST, statusOf, h1, h2, hs, truthy, hne, hlen]
  · intro s hs hne hlen
    simp [handlerPOST, h1, h2, hs, truthy, hne, Nat.not_lt.mpr hlen]

/-- Witness for C5_message_validation: the missing-message rejection and
an accepted two-character message, under a configured credential. -/
theorem C5_message_validation_w :
    statusOf (handlerPOST (some "key") (Except.ok
        ⟨JsVal.undefined, none, none, JsVal.undefined, JsVal.undefined⟩)) = some 400 ∧
    handlerPOST (some "key") (Except.ok
        ⟨JsVal.str "hi", none, none, JsVal.undefined, JsVal.undefined⟩) =
      HandlerResult.stream
        (configFor "hi" ⟨JsVal.str "hi", none, none, JsVal.undefined, JsVal.undefined⟩)
        (useGroundingOf ⟨JsVal.str "hi", none, none, JsVal.undefined, JsVal.undefined⟩) :=
  ⟨(C5_message_validation "key" (by decide) (by decide)
      ⟨JsVal.undefined, none, none, JsVal.undefined, JsVal.undefined⟩).1 (Or.inl rfl),
   (C5_message_validation "key" (by decide) (by decide)
      ⟨JsVal.str "hi", none, none, JsVal.undefined, JsVal.undefined⟩).2 "hi"
      (by decide) (by decide) (by decide)⟩

/-- C8: the outer error path classifies by message content in order —
`"API key"` → 401, else `"quota"`/`"limit"` → 429, else
`"network"`/`"fetch"` → 503, else 500 (also for non-`Error` values) —
and the body carries the generic top-level message, the classified
detail message, the timestamp, and the status-specific hint. -/
theorem C8_error_classification (m now : String) :
    ((outerCatch none now).status = 500 ∧
      (outerCatch none now).details = "Unknown error") ∧
    (strIncludes m "API key" = true →
      (outerCatch (some m) now).status = 401 ∧
      (outerCatch (some m) now).details = "API key probleem: " ++ m ∧
      (outerCatch (some m) now).hint =
        "Controleer je GEMINI_API_KEY in environment variables") ∧
    (strIncludes m "API key" = false →
      (strIncludes m "quota" || strIncludes m "limit") = true →
      (outerCatch (some m) now).status = 429 ∧
      (outerCatch (some m) now).details = "API limiet bereikt: " ++ m ∧
      (outerCatch (some m) now).hint = "Wacht even en probeer opnieuw") ∧
    (strIncludes m "API key" = false →
      (strIncludes m "quota" || strIncludes m "limit") = false →
      (strIncludes m "network" || strIncludes m "fetch") = true →
      (outerCatch (some m) now).status = 503 ∧
      (outerCatch (some m) now).details = "Netwerk probleem: " ++ m ∧
      (outerCatch (some m) now).hint = "Controleer je internetverbinding") ∧
    (strIncludes m "API key" = false →
      (strIncludes m "quota" || strIncludes m "limit") = false →
      (strIncludes m "network" || strIncludes m "fetch") = false →
      (outerCatch (some m) now).status = 500 ∧
      (outerCatch (some m) now).details = m ∧
      (outerCatch (some m) now).hint =
        "Probeer het opnieuw of neem contact op met support") ∧
    (∀ e, (outerCatch e now).error =
        "Er is een fout opgetreden bij het verwerken van je bericht" ∧
      (outerCatch e now).timestamp = now) := by
  refine ⟨⟨rfl, rfl⟩, fun hA => ?_, fun hA hQ => ?_, fun hA hQ hN => ?_,
    fun hA hQ hN => ?_, fun e => ?_⟩
  · simp [outerCatch, hA]
  · simp [outerCatch, hA, hQ]
  · simp [outerCatch, hA, hQ, hN]
  · simp [outerCatch, hA, hQ, hN]
  · cases e <;> simp [outerCatch]

/-- Witness for C8_error_classification at concrete messages from each
class. -/
theorem C8_error_classification_w :
    (outerCatch (some "API key invalid") "t").status = 401 ∧
    (outerCatch (some "quota exceeded") "t").status = 429 ∧
    (outerCatch (some "network is down") "t").status = 503 ∧
    (outerCatch (some "boom") "t").status = 500 ∧
    (outerCatch (some "boom") "t").timestamp = "t" :=
  ⟨((C8_error_classification "API key invalid" "t").2.1 (by decide)).1,
   ((C8_error_classification "quota exceeded" "t").2.2.1 (by decide) (by decide)).1,
   ((C8_error_classification "network is down" "t").2.2.2.1
      (by decide) (by decide) (by decide)).1,
   ((C8_error_classification "boom" "t").2.2.2.2.1
      (by decide) (by decide) (by decide)).1,
   ((C8_error_classification "boom" "t").2.2.2.2.2 (some "boom")).2⟩

/-- C4, as written, is false on the code: with `useGrounding` false the
provider fails with a message that does indicate grounding is
unsupported, yet no retry happens — the single call propagates the
error. -/
theorem C4_no_retry_when_grounding_off :
    groundingUnsupported groundingErr = true ∧
    generateStreamWithFallback (JsVal.bool false) genAlwaysGroundingErr cfgWithTool =
      (Except.error groundingErr, [cfgWithTool]) := by
  refine ⟨by decide, rfl⟩

/-- C4 (amended): when `useGrounding` is truthy and the provider call
fails with a grounding-unsupported message, the handler retries exactly
once with the same configuration minus the tools key; a failure without
that combination propagates with no retry; and no execution makes more
than two provider calls. -/
theorem C4_fallback_retry (ug : JsVal)
    (gen : RequestConfig → Except GenError Upstream) (cfg : RequestConfig) :
    (∀ e, gen cfg = Except.error e → truthy ug = true →
      groundingUnsupported e = true →
      generateStreamWithFallback ug gen cfg =
        (gen (removeTools cfg), [cfg, removeTools cfg])) ∧
    (∀ e, gen cfg = Except.error e →
      ¬(truthy ug = true ∧ groundingUnsupported e = true) →
      generateStreamWithFallback ug gen cfg = (Except.error e, [cfg])) ∧
    (generateStreamWithFallback ug gen cfg).2.length ≤ 2 := by
  refine ⟨fun e he h1 h2 => ?_, fun e he h => ?_, ?_⟩
  · simp [generateStreamWithFallback, he, h1, h2]
  · have hc : (truthy ug && groundingUnsupported e) = false := by
      rcases hu : truthy ug with _ | _
      · rfl
      · rcases hg : groundingUnsupported e with _ | _
        · rfl
        · exact absurd ⟨hu, hg⟩ h
    simp [generateStreamWithFallback, he, hc]
  · unfold generateStreamWithFallback
    cases hg : gen cfg with
    | ok r => simp
    | error e =>
      by_cases hc : (truthy ug && groundingUnsupported e) = true
      · simp [hc]
      · simp [hc]

/-- Witness for C4_fallback_retry: a truthy `useGrounding`, a provider
that always fails with the grounding error, both the retry branch and
the bound discharged. -/
theorem C4_fallback_retry_w :
    generateStreamWithFallback (JsVal.bool true) genAlwaysGroundingErr cfgWithTool =
      (genAlwaysGroundingErr (removeTools cfgWithTool),
       [cfgWithTool, removeTools cfgWithTool]) ∧
    (generateStreamWithFallback (JsVal.bool true) genAlwaysGroundingErr cfgWithTool).2.length ≤ 2 :=
  ⟨(C4_fallback_retry (JsVal.bool true) genAlwaysGroundingErr cfgWithTool).1
      groundingErr rfl rfl (by decide),
   (C4_fallback_retry (JsVal.bool true) genAlwaysGroundingErr cfgWithTool).2.2⟩

/-- C10: the retry is gated on the request's `useGrounding` flag, not on
the tier — exactly two provider calls happen iff `useGrounding` is
truthy and the first call failed with a grounding-unsupported message
(for any configuration, including one whose tool list is already
empty); with `useGrounding` falsy the same error propagates with a
single call. -/
theorem C10_retry_gated_on_flag (ug : JsVal)
    (gen : RequestConfig → Except GenError Upstream) (cfg : RequestConfig) :
    ((generateStreamWithFallback ug gen cfg).2 = [cfg, removeTools cfg] ↔
      truthy ug = true ∧
        ∃ e, gen cfg = Except.error e ∧ groundingUnsupported e = true) ∧
    (truthy ug = false → ∀ e, gen cfg = Except.error e →
      generateStreamWithFallback ug gen cfg = (Except.error e, [cfg])) := by
  constructor
  · constructor
    · intro hcalls
      cases hg : gen cfg with
      | ok r =>
        rw [generateStreamWithFallback, hg] at hcalls
        simp at hcalls
      | error e =>
        by_cases hc : (truthy ug && groundingUnsupported e) = true
        · simp only [Bool.and_eq_true] at hc
          exact ⟨hc.1, e, rfl, hc.2⟩
        · rw [generateStreamWithFallback, hg] at hcalls
          simp [hc] at hcalls
    · rintro ⟨h1, e, hg, h2⟩
      simp [generateStreamWithFallback, hg, h1, h2]
  · intro hf e hg
    simp [generateStreamWithFallback, hg, hf]

/-- Witness for C10_retry_gated_on_flag: the retry fires for a
configuration whose tool list is already empty, and a falsy
`useGrounding` (the number 0) suppresses it. -/
theorem C10_retry_gated_on_flag_w :
    (generateStreamWithFallback (JsVal.bool true) genAlwaysGroundingErr cfgNoTool).2 =
      [cfgNoTool, removeTools cfgNoTool] ∧
    generateStreamWithFallback (JsVal.num 0) genAlwaysGroundingErr cfgWithTool =
      (Except.error groundingErr, [cfgWithTool]) :=
  ⟨(C10_retry_gated_on_flag (JsVal.bool true) genAlwaysGroundingErr cfgNoTool).1.mpr
      ⟨rfl, groundingErr, rfl, by decide⟩,
   (C10_retry_gated_on_flag (JsVal.num 0) genAlwaysGroundingErr cfgWithTool).2
      (by decide) groundingErr rfl⟩

/-- Every event the relay loop itself emits is a Token event. -/
theorem relayLoop_emitted_tokens (cap : Option Nat) (ts : List String) :
    ∀ i, ∀ e ∈ (relayLoop cap ts i).emitted, isTokenEvent e = true := by
  induction ts with
  | nil => intro i e he; simp [relayLoop] at he
  | cons t ts ih =>
    intro i e he
    simp only [relayLoop] at he
    by_cases h1 : t.isEmpty
    · simp only [if_pos h1] at he
      exact ih i e he
    · simp only [if_neg h1] at he
      by_cases h2 : enqOk cap i = true
      · simp only [if_pos h2, List.mem_cons] at he
        rcases he with h | h
        · subst h; rfl
        · exact ih (i + 1) e h
      · simp only [if_neg h2] at he
        simp at he

/-- If the relay loop broke out, the transport rejected an attempt, so
every attempt index from the loop's final index onwards fails too. -/
theorem relayLoop_broke_next (n : Nat) (ts : List String) :
    ∀ i, (relayLoop (some n) ts i).broke = true →
      n ≤ (relayLoop (some n) ts i).next := by
  induction ts with
  | nil => intro i h; simp [relayLoop] at h
  | cons t ts ih =>
    intro i h
    simp only [relayLoop] at h ⊢
    by_cases h1 : t.isEmpty
    · simp only [if_pos h1] at h ⊢
      exact ih i h
    · simp only [if_neg h1] at h ⊢
      by_cases h2 : enqOk (some n) i = true
      · simp only [if_pos h2] at h ⊢
        exact ih (i + 1) h
      · simp only [if_neg h2] at h ⊢
        simp [enqOk] at h2
        omega

/-- When the relay loop broke, its attempt trace is exactly its emitted
tokens followed by the single failed Token attempt: the loop stopped
immediately at the failure. -/
theorem relayLoop_broke_attempts (cap : Option Nat) (ts : List String) :
    ∀ i, (relayLoop cap ts i).broke = true →
      ∃ t, (relayLoop cap ts i).attempts =
        (relayLoop cap ts i).emitted ++ [Event.token t] := by
  induction ts with
  | nil => intro i h; simp [relayLoop] at h
  | cons t ts ih =>
    intro i h
    simp only [relayLoop] at h ⊢
    by_cases h1 : t.isEmpty
    · simp only [if_pos h1] at h ⊢
      exact ih i h
    · simp only [if_neg h1] at h ⊢
      by_cases h2 : enqOk cap i = true
      · simp only [if_pos h2] at h ⊢
        rcases ih (i + 1) h with ⟨t2, happ⟩
        exact ⟨t2, by simp [happ]⟩
      · simp only [if_neg h2]
        exact ⟨t, rfl⟩

/-- C2: for every execution of the stream producer — any provider
outcome, any point at which the transport may close — the emitted event
sequence is zero or more Token events followed by at most one
terminating event, with nothing after the terminating event; and when
the upstream chunk sequence is exhausted without error and the
transport stays open, the terminating event is exactly one Done. -/
theorem C2_stream_events (cap : Option Nat) (up : Except GenError Upstream) :
    wellFormedEvents (producerRun cap up).2 ∧
    (∀ chunks : List String, ∃ toks,
      (producerRun none (Except.ok ⟨chunks, none⟩)).2 = toks ++ [Event.done] ∧
      ∀ e ∈ toks, isTokenEvent e = true) := by
  constructor
  · cases up with
    | error e =>
      by_cases h : enqOk cap 0 = true
      · exact ⟨[], [Event.errorEv e.message],
          by simp [producerRun, terminalAttempt, h], by simp,
          Or.inr ⟨_, rfl, rfl⟩⟩
      · exact ⟨[], [], by simp [producerRun, terminalAttempt, h], by simp,
          Or.inl rfl⟩
    | ok u =>
      rcases u with ⟨chunks, failure⟩
      have htoks := relayLoop_emitted_tokens cap chunks 0
      by_cases hb : (relayLoop cap chunks 0).broke = true
      · by_cases h : enqOk cap (relayLoop cap chunks 0).next = true
        · exact ⟨(relayLoop cap chunks 0).emitted, [Event.done],
            by simp [producerRun, terminalAttempt, hb, h], htoks,
            Or.inr ⟨_, rfl, rfl⟩⟩
        · exact ⟨(relayLoop cap chunks 0).emitted, [],
            by simp [producerRun, terminalAttempt, hb, h], htoks, Or.inl rfl⟩
      · cases failure with
        | none =>
          by_cases h : enqOk cap (relayLoop cap chunks 0).next = true
          · exact ⟨(relayLoop cap chunks 0).emitted, [Event.done],
              by simp [producerRun, terminalAttempt, hb, h], htoks,
              Or.inr ⟨_, rfl, rfl⟩⟩
          · exact ⟨(relayLoop cap chunks 0).emitted, [],
              by simp [producerRun, terminalAttempt, hb, h], htoks, Or.inl rfl⟩
        | some e2 =>
          by_cases h : enqOk cap (relayLoop cap chunks 0).next = true
          · exact ⟨(relayLoop cap chunks 0).emitted, [Event.errorEv e2.message],
              by simp [producerRun, terminalAttempt, hb, h], htoks,
              Or.inr ⟨_, rfl, rfl⟩⟩
          · exact ⟨(relayLoop cap chunks 0).emitted, [],
              by simp [producerRun, terminalAttempt, hb, h], htoks, Or.inl rfl⟩
  · intro chunks
    refine ⟨(relayLoop none chunks 0).emitted, ?_,
      relayLoop_emitted_tokens none chunks 0⟩
    by_cases hb : (relayLoop none chunks 0).broke = true
    · simp [producerRun, terminalAttempt, hb, enqOk]
    · simp [producerRun, terminalAttempt, hb, enqOk]

/-- C6, as written, is false on the code: after the transport rejects
the very first Token enqueue (the loop breaks), the handler still makes
one further enqueue attempt — the completion signal — though it fails
and is swallowed.  Here the attempt trace after the failed Token
attempt is `[Event.done]`, not empty. -/
theorem C6_done_still_attempted :
    (relayLoop (some 0) ["a"] 0).broke = true ∧
    (producerRun (some 0) (Except.ok ⟨["a"], none⟩)).1 =
      [Event.token "a", Event.done] ∧
    (producerRun (some 0) (Except.ok ⟨["a"], none⟩)).2 = [] := by
  decide

/-- C6 (amended): when a Token enqueue fails, the relay loop stops at
that attempt (its attempt trace is its emitted tokens plus the single
failed attempt), no exception propagates (the producer is total and
every failure is swallowed), and no further event is successfully
enqueued — the handler merely makes one trailing completion-signal
attempt, which fails silently. -/
theorem C6_relay_stop (n : Nat) (chunks : List String) (failure : Option GenError)
    (hb : (relayLoop (some n) chunks 0).broke = true) :
    (producerRun (some n) (Except.ok ⟨chunks, failure⟩)).2 =
      (relayLoop (some n) chunks 0).emitted ∧
    (producerRun (some n) (Except.ok ⟨chunks, failure⟩)).1 =
      (relayLoop (some n) chunks 0).attempts ++ [Event.done] ∧
    ∃ t, (relayLoop (some n) chunks 0).attempts =
      (relayLoop (some n) chunks 0).emitted ++ [Event.token t] := by
  have hnext := relayLoop_broke_next n chunks 0 hb
  have hfail : enqOk (some n) (relayLoop (some n) chunks 0).next = false := by
    simp [enqOk]; omega
  refine ⟨?_, ?_, relayLoop_broke_attempts (some n) chunks 0 hb⟩
  · simp [producerRun, terminalAttempt, hb, hfail]
  · simp [producerRun, terminalAttempt, hb]

/-- Witness for C6_relay_stop: capacity 0, one chunk. -/
theorem C6_relay_stop_w :
    (producerRun (some 0) (Except.ok ⟨["b"], none⟩)).2 =
      (relayLoop (some 0) ["b"] 0).emitted ∧
    (producerRun (some 0) (Except.ok ⟨["b"], none⟩)).1 =
      (relayLoop (some 0) ["b"] 0).attempts ++ [Event.done] ∧
    ∃ t, (relayLoop (some 0) ["b"] 0).attempts =
      (relayLoop (some 0) ["b"] 0).emitted ++ [Event.token t] :=
  C6_relay_stop 0 ["b"] none (by decide)

/-- C7, as written, is false on the code: a legacy `image` field that is
present but the empty string is falsy, so the handler takes the
text-only path instead of attaching an image part. -/
theorem C7_empty_legacy_image_text_only :
    buildParts "hi" none (some "") = [Part.text "hi"] ∧
    buildParts "hi" none (some "") ≠ [Part.text "hi", imagePartOf ""] := by
  decide

/-- C7 (amended): a non-empty `images` array yields one text part then
one image part per element in order (whatever the legacy field holds);
otherwise a present non-empty legacy `image` yields one text part then
exactly one image part; otherwise (both absent, or empty) exactly one
text part; each image part carries the base64 payload decoded (after
stripping an optional data-URI prefix) and re-encoded, with MIME type
`image/jpeg`. -/
theorem C7_content_parts (message : String) (images : Option (List String))
    (image : Option String) :
    (∀ xs, images = some xs → xs ≠ [] →
      buildParts message images image = Part.text message :: xs.map imagePartOf) ∧
    ((images = none ∨ images = some []) → ∀ img, image = some img → img ≠ "" →
      buildParts message images image = [Part.text message, imagePartOf img]) ∧
    ((images = none ∨ images = some []) → (image = none ∨ image = some "") →
      buildParts message images image = [Part.text message]) ∧
    (∀ s, imagePartOf s =
      Part.inlineData (base64Encode (base64Decode (stripDataUri s))) "image/jpeg") := by
  refine ⟨?_, ?_, ?_, fun s => rfl⟩
  · rintro xs rfl hne
    have hpos : xs.length > 0 := List.length_pos.mpr hne
    simp [buildParts, hpos]
  · rintro (rfl | rfl) img rfl hne <;> simp [buildParts, hne]
  · rintro (rfl | rfl) (rfl | rfl) <;> simp [buildParts]

/-- Witness for C7_content_parts: both image paths and the text-only
path at concrete inputs. -/
theorem C7_content_parts_w :
    buildParts "m" (some ["QQ=="]) (some "zz") =
      Part.text "m" :: (["QQ=="].map imagePartOf) ∧
    buildParts "m" none (some "QQ==") = [Part.text "m", imagePartOf "QQ=="] ∧
    buildParts "m" none none = [Part.text "m"] :=
  ⟨(C7_content_parts "m" (some ["QQ=="]) (some "zz")).1 ["QQ=="] rfl (by decide),
   (C7_content_parts "m" none (some "QQ==")).2.1 (Or.inl rfl) "QQ==" rfl (by decide),
   (C7_content_parts "m" none none).2.2.1 (Or.inl rfl) (Or.inl rfl)⟩

end ChatStream
